import Mathlib

/-!
Verification of the Statninja/streamlit_dashboardA dashboard repository.

Each Python source file is embedded as a Lean namespace:
* `Xreport`        — src/Xreport.py (USGS fetch, risk classification, geodesic distances)
* `MegaReport`     — src/MegaReport/Xreport.py (haversine distance, USGS fetch)
* `Quakes`         — src/quakes.py (GeoWeatherIntelligence class)
* `DashboardA`     — src/streamlit_dashboardA.py (banking campaign audience filter)
* `Aftershock`     — the Omori-law aftershock estimate described by the spec

Machine floats in the Python sources are modelled as real numbers (or as
rationals where every operation on them is exact and order-decidable).
-/

namespace Xreport

/-- The six risk categories returned by `classify_earthquake_risk` in
src/Xreport.py, ordered by severity. -/
inductive RiskLevel where
  | LOW
  | MINOR
  | MODERATE
  | SEVERE
  | CRITICAL
  | CATASTROPHIC
deriving DecidableEq, Repr

/-- Numeric severity rank of a risk category:
LOW < MINOR < MODERATE < SEVERE < CRITICAL < CATASTROPHIC. -/
def RiskLevel.severity : RiskLevel → Nat
  | .LOW => 0
  | .MINOR => 1
  | .MODERATE => 2
  | .SEVERE => 3
  | .CRITICAL => 4
  | .CATASTROPHIC => 5

/-- Embedding of `classify_earthquake_risk(magnitude, distance_km, tsunami=False)`
from src/Xreport.py lines 152-167.  The float inputs are modelled as rationals
(every comparison in the source is exact). -/
def classify_earthquake_risk (magnitude distance_km : ℚ) (tsunami : Bool := false) : RiskLevel :=
  if tsunami = true ∧ magnitude ≥ 7 then .CATASTROPHIC
  else if magnitude ≥ 8 then .CATASTROPHIC
  else if magnitude ≥ 7 then .CRITICAL
  else if magnitude ≥ 6 then .SEVERE
  else if magnitude ≥ 5 ∧ distance_km ≤ 100 then .MODERATE
  else if magnitude ≥ 4 ∧ distance_km ≤ 50 then .MINOR
  else .LOW

end Xreport

namespace Aftershock

/-- Modelled from the spec: productivity constant `K` of the Omori-law
aftershock formula.  The spec describes `calculate_aftershock_probability`
(`rate = K / (c + days)^p`, `prob = 1 - exp(-rate * 7 * 0.05)` with hardcoded
constants) but its defining file is not among the sources provided, so the
formula is embedded from the spec with representative positive constants. -/
noncomputable def K : ℝ := 1

/-- Modelled from the spec: Omori-law time-offset constant `c`. -/
noncomputable def c : ℝ := 0.1

/-- Modelled from the spec: Omori-law decay exponent `p`. -/
noncomputable def p : ℝ := 1.1

/-- Modelled from the spec: `rate = K / (c + days) ** p`. -/
noncomputable def rate (days : ℝ) : ℝ := K / (c + days) ^ p

/-- Modelled from the spec: `prob = 1 - exp(-rate * 7 * 0.05)`. -/
noncomputable def calculate_aftershock_probability (days : ℝ) : ℝ :=
  1 - Real.exp (-rate days * 7 * 0.05)

lemma base_pos {d : ℝ} (hd : 0 ≤ d) : 0 < c + d := by
  unfold c; nlinarith

lemma rate_pos {d : ℝ} (hd : 0 ≤ d) : 0 < rate d := by
  unfold rate
  exact div_pos (by unfold K; norm_num) (Real.rpow_pos_of_pos (base_pos hd) _)

lemma rate_antitone {d1 d2 : ℝ} (h1 : 0 ≤ d1) (h12 : d1 ≤ d2) :
    rate d2 ≤ rate d1 := by
  have hb1 : 0 < c + d1 := base_pos h1
  have hb12 : c + d1 ≤ c + d2 := by linarith
  have hpow : (c + d1) ^ p ≤ (c + d2) ^ p :=
    Real.rpow_le_rpow (le_of_lt hb1) hb12 (by unfold p; norm_num)
  have hp1 : 0 < (c + d1) ^ p := Real.rpow_pos_of_pos hb1 _
  unfold rate K
  exact one_div_le_one_div_of_le hp1 hpow

end Aftershock

namespace Http

/-- Outcome of an HTTP request as observed by the caller: either the call
raised an exception (timeout, network failure, bad JSON, ...), or it produced
a response with a status code and a parsed body. -/
inductive HttpResult (α : Type) where
  | exn : HttpResult α
  | resp (status : Nat) (body : α) : HttpResult α

/-- A Python `try/except Exception` block: run the body; if it raises,
run the handler instead. -/
def tryExcept {ε α : Type} (body : Except ε α) (handler : Except ε α) : Except ε α :=
  match body with
  | .ok a => .ok a
  | .error _ => handler

end Http

namespace MegaReport

open Http

/-- `np.radians`: degrees to radians. -/
noncomputable def radians (x : ℝ) : ℝ := x * Real.pi / 180

/-- `np.arctan2(y, x)`: the angle of the point `(x, y)`, in `(-π, π]`. -/
noncomputable def arctan2 (y x : ℝ) : ℝ :=
  if 0 < x then Real.arctan (y / x)
  else if x < 0 then
    (if 0 ≤ y then Real.arctan (y / x) + Real.pi else Real.arctan (y / x) - Real.pi)
  else
    (if 0 < y then Real.pi / 2 else if y < 0 then -(Real.pi / 2) else 0)

/-- The intermediate quantity `a` of `haversine` in src/MegaReport/Xreport.py
lines 82-88. -/
noncomputable def hav_a (lat1 lon1 lat2 lon2 : ℝ) : ℝ :=
  Real.sin (radians (lat2 - lat1) / 2) ^ 2 +
    Real.cos (radians lat1) * Real.cos (radians lat2) *
      Real.sin (radians (lon2 - lon1) / 2) ^ 2

/-- Embedding of `haversine(lat1, lon1, lat2, lon2)` from
src/MegaReport/Xreport.py lines 82-88 (`R = 6371` km,
`c = 2 * arctan2(sqrt(a), sqrt(1-a))`, result `R * c`). -/
noncomputable def haversine (lat1 lon1 lat2 lon2 : ℝ) : ℝ :=
  6371 * (2 * arctan2 (Real.sqrt (hav_a lat1 lon1 lat2 lon2))
    (Real.sqrt (1 - hav_a lat1 lon1 lat2 lon2)))

lemma arctan2_nonneg {y x : ℝ} (hy : 0 ≤ y) (hx : 0 ≤ x) : 0 ≤ arctan2 y x := by
  unfold arctan2
  split_ifs with h1 h2 h3 h4
  · have h0 : (0 : ℝ) ≤ y / x := div_nonneg hy (le_of_lt h1)
    calc (0 : ℝ) = Real.arctan 0 := Real.arctan_zero.symm
      _ ≤ Real.arctan (y / x) := Real.arctan_strictMono.monotone h0
  · linarith
  · linarith [Real.pi_pos]
  · linarith
  · exact le_refl 0

lemma hav_a_symm (lat1 lon1 lat2 lon2 : ℝ) :
    hav_a lat2 lon2 lat1 lon1 = hav_a lat1 lon1 lat2 lon2 := by
  unfold hav_a radians
  have k : ∀ u v : ℝ,
      Real.sin ((u - v) * Real.pi / 180 / 2) ^ 2 =
        Real.sin ((v - u) * Real.pi / 180 / 2) ^ 2 := by
    intro u v
    have e : (u - v) * Real.pi / 180 / 2 = -((v - u) * Real.pi / 180 / 2) := by ring
    rw [e, Real.sin_neg]
    ring
  rw [k lat1 lat2, k lon1 lon2]
  ring

/-- Python `round(x, 2)`: round to two decimal places (exact ties are rounded
by Mathlib's `round`; the claims do not depend on tie direction). -/
noncomputable def round2 (x : ℝ) : ℝ := ((round (x * 100) : ℤ) : ℝ) / 100

/-- One GeoJSON feature as consumed by `fetch_earthquakes` in
src/MegaReport/Xreport.py: `properties.time` (ms), `properties.mag`,
`properties.place`, and `geometry.coordinates = [lon, lat, depth]`. -/
structure Feature where
  time : ℚ
  mag : ℝ
  place : String
  coords : ℝ × ℝ × ℝ

/-- One row of the DataFrame built by `fetch_earthquakes` in
src/MegaReport/Xreport.py lines 125-139. -/
structure Quake where
  time : ℚ
  magnitude : ℝ
  depth : ℝ
  place : String
  distance_km : ℝ
  lat : ℝ
  lon : ℝ

/-- The per-feature record construction in the loop of `fetch_earthquakes`
(src/MegaReport/Xreport.py lines 126-138);
`dist = haversine(lat, lon, coords[1], coords[0])`. -/
noncomputable def processQuake (lat lon : ℝ) (f : Feature) : Quake :=
  { time := f.time / 1000
    magnitude := f.mag
    depth := f.coords.2.2
    place := f.place
    distance_km := round2 (haversine lat lon f.coords.2.1 f.coords.1)
    lat := f.coords.2.1
    lon := f.coords.1 }

/-- The body of the `try` block of `fetch_earthquakes`: the request either
raises, or yields a response; `raise_for_status` raises on status >= 400;
otherwise the features (`data.get("features", [])`) are mapped to rows. -/
noncomputable def fetch_earthquakes_body (lat lon : ℝ)
    (h : HttpResult (Option (List Feature))) : Except Unit (List Quake) :=
  match h with
  | .exn => .error ()
  | .resp status body =>
    if 400 ≤ status then .error ()
    else .ok ((body.getD []).map (processQuake lat lon))

/-- Embedding of `fetch_earthquakes` from src/MegaReport/Xreport.py lines
105-142: the whole body is wrapped in `try/except`, and the handler displays
an error and returns an empty DataFrame. -/
noncomputable def fetch_earthquakes (lat lon : ℝ)
    (h : HttpResult (Option (List Feature))) : Except Unit (List Quake) :=
  tryExcept (fetch_earthquakes_body lat lon h) (Except.ok [])

end MegaReport

namespace Xreport

/-- One GeoJSON feature as consumed by `process_earthquake_data` in
src/Xreport.py lines 124-145: `feature.id`, optional properties (`.get`
defaults in the source), `properties.time` (ms), and
`geometry.coordinates = [lon, lat, depth]`. -/
structure Feature where
  id : String
  mag : Option ℚ
  place : Option String
  sig : Option ℚ
  tsunami : Option ℚ
  time : ℚ
  coords : ℝ × ℝ × ℝ

/-- One row of the DataFrame built by `process_earthquake_data`. -/
structure Quake where
  id : String
  magnitude : ℚ
  latitude : ℝ
  longitude : ℝ
  depth_km : ℝ
  location : String
  time : ℚ
  distance_km : ℝ
  significance : ℚ
  tsunami : Bool

/-- The parsed GeoJSON payload of src/Xreport.py; `none` models a falsy
response or one without a `features` key. -/
abbrev GeoJson := Option (List Feature)

/-- Python `round(x, 1)`: round to one decimal place. -/
noncomputable def round1 (x : ℝ) : ℝ := ((round (x * 10) : ℤ) : ℝ) / 10

/-- The record built for one feature in the loop of `process_earthquake_data`
(src/Xreport.py lines 124-145).  The geodesic distance of the geopy library
is an opaque parameter `geodesic user_lat user_lon eq_lat eq_lon`. -/
noncomputable def processFeature (geodesic : ℝ → ℝ → ℝ → ℝ → ℝ)
    (user_lat user_lon : ℝ) (f : Feature) : Quake :=
  { id := f.id
    magnitude := f.mag.getD 0
    latitude := f.coords.2.1
    longitude := f.coords.1
    depth_km := f.coords.2.2
    location := f.place.getD "Unknown"
    time := f.time / 1000
    distance_km := round1 (geodesic user_lat user_lon f.coords.2.1 f.coords.1)
    significance := f.sig.getD 0
    tsunami := decide (f.tsunami.getD 0 = 1) }

/-- Embedding of `process_earthquake_data(geojson, user_lat, user_lon)` from
src/Xreport.py lines 118-150: a falsy or feature-less payload yields an empty
frame; otherwise one row per feature, sorted by time descending. -/
noncomputable def process_earthquake_data (geojson : GeoJson)
    (user_lat user_lon : ℝ) (geodesic : ℝ → ℝ → ℝ → ℝ → ℝ) : List Quake :=
  match geojson with
  | none => []
  | some features =>
    (features.map (processFeature geodesic user_lat user_lon)).mergeSort
      fun a b => decide (b.time ≤ a.time)

/-- The body of the `try` block of `fetch_earthquakes` in src/Xreport.py lines
110-113: the request either raises, or yields a response; `raise_for_status`
raises on status >= 400; otherwise the parsed JSON is returned. -/
def fetch_earthquakes_body (h : Http.HttpResult GeoJson) :
    Except Unit (Option GeoJson) :=
  match h with
  | .exn => .error ()
  | .resp status body =>
    if 400 ≤ status then .error ()
    else .ok (some body)

/-- Embedding of `fetch_earthquakes` from src/Xreport.py lines 93-116: any
exception is caught, an error is displayed, and `None` is returned. -/
def fetch_earthquakes (h : Http.HttpResult GeoJson) : Except Unit (Option GeoJson) :=
  Http.tryExcept (fetch_earthquakes_body h) (Except.ok none)

end Xreport

namespace Quakes

/-- One GeoJSON feature as consumed by `get_earthquake_data` in src/quakes.py
lines 211-227, with the optional properties of the source's `.get` calls and
`geometry.coordinates` as a plain list. -/
structure QFeature where
  place : Option String
  mag : Option ℚ
  time : Option ℚ
  sig : Option ℚ
  tsunami : Option ℚ
  coords : List ℚ
  id : String
deriving DecidableEq

/-- One earthquake record of src/quakes.py (`get_earthquake_data` and
`get_fallback_earthquakes`).  The `time` field holds the numeric timestamp in
seconds (the source formats it with `strftime`, which is pure rendering). -/
structure QRecord where
  location : String
  magnitude : ℚ
  depth : ℚ
  lat : ℚ
  lon : ℚ
  time : ℚ
  usgs_id : String
  significance : ℚ
  tsunami : ℚ
deriving DecidableEq

/-- The record built for one feature in the loop of `get_earthquake_data`
(src/quakes.py lines 211-227): `coords[k] if len(coords) > k else 0.0`
becomes `getD`, and the `.get` property defaults are kept. -/
def parseFeature (f : QFeature) : QRecord :=
  { location := f.place.getD "Unknown Location"
    magnitude := f.mag.getD 0
    depth := f.coords.getD 2 0
    lat := f.coords.getD 1 0
    lon := f.coords.getD 0 0
    time := f.time.getD 0 / 1000
    usgs_id := f.id
    significance := f.sig.getD 0
    tsunami := if f.tsunami.getD 0 = 1 then 1 else 0 }

/-- Embedding of `get_fallback_earthquakes(lat, lon)` from src/quakes.py lines
238-268.  The `np.random.uniform` draws are an opaque stream
`rand i = (depth, dlat, dlon)`; `now` is the current timestamp in seconds
(`base_time = now - 30 days`). -/
def get_fallback_earthquakes (lat lon : ℚ) (rand : Nat → ℚ × ℚ × ℚ) (now : ℚ) :
    List QRecord :=
  let base_time := now - 30 * 86400
  let magnitudes : List ℚ := [2.5, 3.1, 4.2, 2.8, 3.7, 5.1, 2.9, 3.5, 4.8, 3.2, 2.7, 4.1]
  let locations : List String :=
    ["Pacific Ocean", "North Atlantic Ridge", "Mediterranean Sea",
     "Indian Ocean", "Caribbean Sea", "South Pacific",
     "Mid-Atlantic Ridge", "Ring of Fire", "Alpine Fault",
     "San Andreas Fault", "Himalayan Front", "Andean Belt"]
  magnitudes.enum.map fun im =>
    { location := locations.getD (im.1 % locations.length) "" ++ " Region"
      magnitude := im.2
      depth := (rand im.1).1
      lat := lat + (rand im.1).2.1
      lon := lon + (rand im.1).2.2
      time := base_time + ((im.1 : ℚ) * 2 * 86400 + (im.1 : ℚ) * 3 * 3600)
      usgs_id := "fallback_" ++ toString (im.1 + 1)
      significance := ((Int.floor (im.2 * (50 : ℚ))) : ℚ)
      tsunami := if im.2 > 6.5 then 1 else 0 }

/-- The `try` body of `get_earthquake_data` (src/quakes.py lines 187-231):
`some records` models the early `return earthquakes` (status 200 and a
non-empty feature list); `none` models control falling out of the `try`. -/
def get_earthquake_data_try (h : Http.HttpResult (List QFeature)) :
    Except Unit (Option (List QRecord)) :=
  match h with
  | .exn => .error ()
  | .resp status features =>
    if status = 200 then
      let earthquakes := features.map parseFeature
      if earthquakes.isEmpty then .ok none else .ok (some earthquakes)
    else .ok none

/-- Embedding of `get_earthquake_data(lat, lon, radius_km)` from src/quakes.py
lines 185-236: any exception is caught (`st.error`), and both the caught-error
path and the fall-through path end in `return self.get_fallback_earthquakes`. -/
def get_earthquake_data (lat lon radius_km : ℚ) (h : Http.HttpResult (List QFeature))
    (rand : Nat → ℚ × ℚ × ℚ) (now : ℚ) : Except Unit (List QRecord) :=
  match get_earthquake_data_try h with
  | .ok (some l) => .ok l
  | .ok none => .ok (get_fallback_earthquakes lat lon rand now)
  | .error _ => .ok (get_fallback_earthquakes lat lon rand now)

/-- The hard-coded city dictionary of `get_city_coordinates`
(src/quakes.py lines 155-175). -/
def city_coordinates : List (String × ℚ × ℚ) :=
  [("london", (51.5074, -0.1278)),
   ("new york", (40.7128, -74.0060)),
   ("tokyo", (35.6762, 139.6503)),
   ("paris", (48.8566, 2.3522)),
   ("sydney", (-33.8688, 151.2093)),
   ("los angeles", (34.0522, -118.2437)),
   ("chicago", (41.8781, -87.6298)),
   ("toronto", (43.6532, -79.3832)),
   ("mumbai", (19.0760, 72.8777)),
   ("berlin", (52.5200, 13.4050)),
   ("dubai", (25.2048, 55.2708)),
   ("singapore", (1.3521, 103.8198)),
   ("seoul", (37.5665, 126.9780)),
   ("moscow", (55.7558, 37.6173)),
   ("cairo", (30.0444, 31.2357)),
   ("london uk", (51.5074, -0.1278)),
   ("new york city", (40.7128, -74.0060)),
   ("san francisco", (37.7749, -122.4194)),
   ("tokyo japan", (35.6762, 139.6503))]

/-- Python `str.lower()`, character-wise (ASCII-adequate for the city keys). -/
def pyLower (s : String) : String := ⟨s.data.map Char.toLower⟩

/-- Python `str.strip()`: drop whitespace from both ends. -/
def pyStrip (s : String) : String :=
  ⟨((s.data.dropWhile Char.isWhitespace).reverse.dropWhile Char.isWhitespace).reverse⟩

/-- Embedding of `get_city_coordinates(city_name)` from src/quakes.py lines
153-183: look up `city_name.lower().strip()` in the dictionary and default to
London. -/
def get_city_coordinates (city_name : String) : ℚ × ℚ :=
  match city_coordinates.lookup (pyStrip (pyLower city_name)) with
  | some coords => coords
  | none => (51.5074, -0.1278)

lemma lookup_eq_none_of_not_mem_keys {α β : Type} [BEq α] [LawfulBEq α]
    {l : List (α × β)} {k : α} (h : k ∉ l.map Prod.fst) : l.lookup k = none := by
  induction l with
  | nil => rfl
  | cons p l ih =>
    obtain ⟨a, b⟩ := p
    simp only [List.map_cons, List.mem_cons] at h
    push_neg at h
    obtain ⟨h1, h2⟩ := h
    have hb : (k == a) = false := beq_eq_false_iff_ne.mpr h1
    simp [List.lookup, hb, ih h2]

end Quakes

namespace DashboardA

/-- One row of the generated customer table `df_customers`
(src/streamlit_dashboardA.py lines 127-145). -/
structure Customer where
  customer_id : String
  age : ℕ
  income_segment : String
  product_holdings : ℕ
  last_transaction_days : ℕ
  total_balance : ℚ
  risk_profile : String
  region : String
  latitude : ℚ
  longitude : ℚ
  campaign_eligible : Bool
deriving DecidableEq

/-- The boolean mask of the Audience Generation filter
(src/streamlit_dashboardA.py lines 418-424). -/
def audienceFilter (min_balance : ℚ) (max_age : ℕ) (income_levels : List String)
    (regions : List String) (min_products : ℕ) (c : Customer) : Bool :=
  decide (c.total_balance ≥ min_balance) && decide (c.age ≤ max_age) &&
    decide (c.income_segment ∈ income_levels) && decide (c.region ∈ regions) &&
    decide (c.product_holdings ≥ min_products) && c.campaign_eligible

/-- `filtered_audience`: the rows of the customer table selected by the
boolean-mask indexing at src/streamlit_dashboardA.py lines 418-425. -/
def generate_audience (customers : List Customer) (min_balance : ℚ) (max_age : ℕ)
    (income_levels regions : List String) (min_products : ℕ) : List Customer :=
  customers.filter (audienceFilter min_balance max_age income_levels regions min_products)

/-- A sample customer row, used to instantiate the audience-filter theorem. -/
def sampleCustomer : Customer :=
  { customer_id := "CUST_0001"
    age := 30
    income_segment := "High"
    product_holdings := 2
    last_transaction_days := 5
    total_balance := 2000
    risk_profile := "Low"
    region := "Madrid"
    latitude := 40
    longitude := -3
    campaign_eligible := true }

end DashboardA

/-- A sample GeoJSON feature for the MegaReport embedding, used to instantiate
the distance-field theorem. -/
noncomputable def sampleFeatureMega : MegaReport.Feature :=
  { time := 1700000000000
    mag := 5
    place := "Pacific Ocean"
    coords := (1, 2, 3) }

/-- A sample GeoJSON feature for the Xreport embedding, used to instantiate
the distance-field theorem. -/
noncomputable def sampleFeatureX : Xreport.Feature :=
  { id := "us7000abcd"
    mag := some 5
    place := some "Pacific Ocean"
    sig := some 250
    tsunami := some 0
    time := 1700000000000
    coords := (1, 2, 3) }

set_option maxHeartbeats 2000000 in
/-- C3: for every fixed distance and tsunami flag, `classify_earthquake_risk`
is monotone in magnitude under the severity order
LOW < MINOR < MODERATE < SEVERE < CRITICAL < CATASTROPHIC. -/
theorem classify_earthquake_risk_monotone_in_magnitude
    (m1 m2 d : ℚ) (t : Bool) (h : m1 ≤ m2) :
    (Xreport.classify_earthquake_risk m1 d t).severity ≤
      (Xreport.classify_earthquake_risk m2 d t).severity := by
  unfold Xreport.classify_earthquake_risk
  rcases t with _ | _ <;>
    split_ifs <;>
      simp_all [Xreport.RiskLevel.severity] <;>
      linarith

/-- Witness for C3 at magnitudes 3 and 9, distance 10, no tsunami. -/
theorem classify_earthquake_risk_monotone_in_magnitude_witness :
    (Xreport.classify_earthquake_risk 3 10 false).severity ≤
      (Xreport.classify_earthquake_risk 9 10 false).severity :=
  classify_earthquake_risk_monotone_in_magnitude 3 9 10 false (by norm_num)

/-- C4 counterexample: at magnitude 4.5 the returned category depends on the
distance (10 km gives MINOR, 60 km gives LOW), so the category does not
depend only on the magnitude. -/
theorem classify_earthquake_risk_depends_on_distance :
    Xreport.classify_earthquake_risk 4.5 10 false ≠
      Xreport.classify_earthquake_risk 4.5 60 false := by
  unfold Xreport.classify_earthquake_risk
  norm_num
  decide

/-- C4 amended: the category depends only on the magnitude when the magnitude
is below 4, in [6,7), or at least 8; in the bands [4,6) it also depends on the
distance and in [7,8) on the tsunami flag. -/
theorem classify_earthquake_risk_magnitude_only_bands
    (m d1 d2 : ℚ) (t1 t2 : Bool)
    (h : m < 4 ∨ (6 ≤ m ∧ m < 7) ∨ 8 ≤ m) :
    Xreport.classify_earthquake_risk m d1 t1 =
      Xreport.classify_earthquake_risk m d2 t2 := by
  unfold Xreport.classify_earthquake_risk
  rcases h with h | ⟨h1, h2⟩ | h <;>
    split_ifs <;> first
      | rfl
      | (exfalso; simp_all <;> linarith)

/-- Witness for the amended C4 at magnitude 9 with different distances and
tsunami flags. -/
theorem classify_earthquake_risk_magnitude_only_bands_witness :
    Xreport.classify_earthquake_risk 9 10 false =
      Xreport.classify_earthquake_risk 9 999 true :=
  classify_earthquake_risk_magnitude_only_bands 9 10 999 false true (by norm_num)

/-- C1: the (spec-modelled) `calculate_aftershock_probability` returns, for
every elapsed-days input, exactly the closed-form value
`1 - exp(-(K / (c + days)^p) * 7 * 0.05)`. -/
theorem calculate_aftershock_probability_closed_form (days : ℝ) :
    Aftershock.calculate_aftershock_probability days =
      1 - Real.exp (-(Aftershock.K / (Aftershock.c + days) ^ Aftershock.p) * 7 * 0.05) :=
  rfl

/-- C2: the aftershock probability is bounded in [0,1] and monotonically
decreasing in elapsed days (the spec formula carries no magnitude dependence,
so this holds for every fixed magnitude). -/
theorem calculate_aftershock_probability_bounded_antitone :
    (∀ d : ℝ, 0 ≤ d → Aftershock.calculate_aftershock_probability d ∈ Set.Icc (0 : ℝ) 1) ∧
    ∀ d1 d2 : ℝ, 0 ≤ d1 → d1 < d2 →
      Aftershock.calculate_aftershock_probability d2 ≤
        Aftershock.calculate_aftershock_probability d1 := by
  constructor
  · intro d hd
    have hr := Aftershock.rate_pos hd
    have hle : Real.exp (-Aftershock.rate d * 7 * 0.05) ≤ 1 := by
      rw [Real.exp_le_one_iff]
      nlinarith
    have hpos := Real.exp_pos (-Aftershock.rate d * 7 * 0.05)
    unfold Aftershock.calculate_aftershock_probability
    rw [Set.mem_Icc]
    constructor <;> linarith
  · intro d1 d2 h1 h12
    have hr := Aftershock.rate_antitone h1 (le_of_lt h12)
    have hexp : Real.exp (-Aftershock.rate d1 * 7 * 0.05) ≤
        Real.exp (-Aftershock.rate d2 * 7 * 0.05) := by
      rw [Real.exp_le_exp]
      nlinarith
    unfold Aftershock.calculate_aftershock_probability
    linarith

/-- Witness for C2 at elapsed days 0 and 1. -/
theorem calculate_aftershock_probability_bounded_antitone_witness :
    Aftershock.calculate_aftershock_probability 0 ∈ Set.Icc (0 : ℝ) 1 ∧
      Aftershock.calculate_aftershock_probability 1 ≤
        Aftershock.calculate_aftershock_probability 0 :=
  ⟨calculate_aftershock_probability_bounded_antitone.1 0 le_rfl,
   calculate_aftershock_probability_bounded_antitone.2 0 1 le_rfl one_pos⟩

/-- C5: the haversine distance is symmetric in its two coordinate pairs and
non-negative, for all real coordinates. -/
theorem haversine_symm_nonneg :
    (∀ lat1 lon1 lat2 lon2 : ℝ,
      MegaReport.haversine lat1 lon1 lat2 lon2 =
        MegaReport.haversine lat2 lon2 lat1 lon1) ∧
    ∀ lat1 lon1 lat2 lon2 : ℝ, 0 ≤ MegaReport.haversine lat1 lon1 lat2 lon2 := by
  constructor
  · intro lat1 lon1 lat2 lon2
    unfold MegaReport.haversine
    rw [MegaReport.hav_a_symm lat1 lon1 lat2 lon2]
  · intro lat1 lon1 lat2 lon2
    unfold MegaReport.haversine
    have h := MegaReport.arctan2_nonneg
      (Real.sqrt_nonneg (MegaReport.hav_a lat1 lon1 lat2 lon2))
      (Real.sqrt_nonneg (1 - MegaReport.hav_a lat1 lon1 lat2 lon2))
    linarith

/-- C6: every data-fetching operation wraps its HTTP call in try/except and,
for every outcome of the call, returns normally; when the call raises, the
result is `None` (src/Xreport.py), an empty DataFrame (src/MegaReport), or
the fallback dataset (src/quakes.py). -/
theorem fetch_operations_never_raise :
    (∀ h : Http.HttpResult Xreport.GeoJson,
        ∃ r, Xreport.fetch_earthquakes h = Except.ok r) ∧
    Xreport.fetch_earthquakes Http.HttpResult.exn = Except.ok none ∧
    (∀ (lat lon : ℝ) (h : Http.HttpResult (Option (List MegaReport.Feature))),
        ∃ l, MegaReport.fetch_earthquakes lat lon h = Except.ok l) ∧
    (∀ lat lon : ℝ,
        MegaReport.fetch_earthquakes lat lon Http.HttpResult.exn = Except.ok []) ∧
    (∀ (lat lon radius_km : ℚ) (h : Http.HttpResult (List Quakes.QFeature))
        (rand : Nat → ℚ × ℚ × ℚ) (now : ℚ),
        ∃ l, Quakes.get_earthquake_data lat lon radius_km h rand now = Except.ok l) ∧
    ∀ (lat lon radius_km : ℚ) (rand : Nat → ℚ × ℚ × ℚ) (now : ℚ),
      Quakes.get_earthquake_data lat lon radius_km Http.HttpResult.exn rand now =
        Except.ok (Quakes.get_fallback_earthquakes lat lon rand now) := by
  refine ⟨?_, rfl, ?_, fun _ _ => rfl, ?_, fun _ _ _ _ _ => rfl⟩
  · intro h
    cases h with
    | exn => exact ⟨none, rfl⟩
    | resp s b =>
      by_cases hs : 400 ≤ s
      · exact ⟨none, by
          simp [Xreport.fetch_earthquakes, Xreport.fetch_earthquakes_body, Http.tryExcept, hs]⟩
      · exact ⟨some b, by
          simp [Xreport.fetch_earthquakes, Xreport.fetch_earthquakes_body, Http.tryExcept, hs]⟩
  · intro lat lon h
    cases h with
    | exn => exact ⟨[], rfl⟩
    | resp s b =>
      by_cases hs : 400 ≤ s
      · exact ⟨[], by
          simp [MegaReport.fetch_earthquakes, MegaReport.fetch_earthquakes_body,
            Http.tryExcept, hs]⟩
      · exact ⟨(b.getD []).map (MegaReport.processQuake lat lon), by
          simp [MegaReport.fetch_earthquakes, MegaReport.fetch_earthquakes_body,
            Http.tryExcept, hs]⟩
  · intro lat lon radius_km h rand now
    cases h with
    | exn => exact ⟨_, rfl⟩
    | resp s b =>
      by_cases hs : s = 200
      · subst hs
        cases b with
        | nil => exact ⟨_, rfl⟩
        | cons f fs => exact ⟨_, rfl⟩
      · exact ⟨Quakes.get_fallback_earthquakes lat lon rand now, by
          simp [Quakes.get_earthquake_data, Quakes.get_earthquake_data_try, hs]⟩

/-- C7: every earthquake record carries as its distance field the great-circle
distance from the user's reference point to its own epicenter — rounded to 2
decimals of the haversine value in the MegaReport variant, and to 1 decimal of
the geodesic value in the Xreport variant. -/
theorem earthquake_distance_field :
    (∀ (lat lon : ℝ) (h : Http.HttpResult (Option (List MegaReport.Feature)))
        (l : List MegaReport.Quake),
        MegaReport.fetch_earthquakes lat lon h = Except.ok l →
        ∀ q ∈ l, q.distance_km =
          MegaReport.round2 (MegaReport.haversine lat lon q.lat q.lon)) ∧
    ∀ (geodesic : ℝ → ℝ → ℝ → ℝ → ℝ) (user_lat user_lon : ℝ)
      (geojson : Xreport.GeoJson),
      ∀ q ∈ Xreport.process_earthquake_data geojson user_lat user_lon geodesic,
        q.distance_km =
          Xreport.round1 (geodesic user_lat user_lon q.latitude q.longitude) := by
  constructor
  · intro lat lon h l hfetch q hq
    cases h with
    | exn =>
      simp [MegaReport.fetch_earthquakes, MegaReport.fetch_earthquakes_body,
        Http.tryExcept] at hfetch
      subst hfetch
      simp at hq
    | resp s b =>
      by_cases hs : 400 ≤ s
      · simp [MegaReport.fetch_earthquakes, MegaReport.fetch_earthquakes_body,
          Http.tryExcept, hs] at hfetch
        subst hfetch
        simp at hq
      · simp [MegaReport.fetch_earthquakes, MegaReport.fetch_earthquakes_body,
          Http.tryExcept, hs] at hfetch
        subst hfetch
        simp only [List.mem_map] at hq
        obtain ⟨f, hf, rfl⟩ := hq
        rfl
  · intro geodesic user_lat user_lon geojson q hq
    cases geojson with
    | none => simp [Xreport.process_earthquake_data] at hq
    | some features =>
      simp only [Xreport.process_earthquake_data, List.mem_mergeSort,
        List.mem_map] at hq
      obtain ⟨f, hf, rfl⟩ := hq
      rfl

/-- Witness for C7 on one concrete feature in each variant. -/
theorem earthquake_distance_field_witness :
    (MegaReport.processQuake 0 0 sampleFeatureMega).distance_km =
        MegaReport.round2 (MegaReport.haversine 0 0
          (MegaReport.processQuake 0 0 sampleFeatureMega).lat
          (MegaReport.processQuake 0 0 sampleFeatureMega).lon) ∧
    (Xreport.processFeature (fun _ _ _ _ => 0) 0 0 sampleFeatureX).distance_km =
        Xreport.round1 ((fun _ _ _ _ => (0 : ℝ)) 0 0
          (Xreport.processFeature (fun _ _ _ _ => 0) 0 0 sampleFeatureX).latitude
          (Xreport.processFeature (fun _ _ _ _ => 0) 0 0 sampleFeatureX).longitude) := by
  constructor
  · exact earthquake_distance_field.1 0 0
      (Http.HttpResult.resp 200 (some [sampleFeatureMega]))
      [MegaReport.processQuake 0 0 sampleFeatureMega] rfl
      (MegaReport.processQuake 0 0 sampleFeatureMega) (List.mem_singleton_self _)
  · exact earthquake_distance_field.2 (fun _ _ _ _ => 0) 0 0 (some [sampleFeatureX])
      (Xreport.processFeature (fun _ _ _ _ => 0) 0 0 sampleFeatureX)
      (by simp [Xreport.process_earthquake_data])

/-- C8: `get_earthquake_data` never returns an empty result: every failing
request, non-200 status, or empty feature list ends in the fallback dataset,
which has exactly 12 records; every outcome yields a non-empty list. -/
theorem get_earthquake_data_fallback_nonempty :
    ∀ (lat lon radius_km : ℚ) (rand : Nat → ℚ × ℚ × ℚ) (now : ℚ),
      (Quakes.get_fallback_earthquakes lat lon rand now).length = 12 ∧
      Quakes.get_earthquake_data lat lon radius_km Http.HttpResult.exn rand now =
        Except.ok (Quakes.get_fallback_earthquakes lat lon rand now) ∧
      (∀ (s : Nat) (b : List Quakes.QFeature), s ≠ 200 ∨ b = [] →
        Quakes.get_earthquake_data lat lon radius_km (Http.HttpResult.resp s b) rand now =
          Except.ok (Quakes.get_fallback_earthquakes lat lon rand now)) ∧
      ∀ h : Http.HttpResult (List Quakes.QFeature),
        ∃ l, Quakes.get_earthquake_data lat lon radius_km h rand now = Except.ok l ∧
          l ≠ [] := by
  intro lat lon radius_km rand now
  have hlen : (Quakes.get_fallback_earthquakes lat lon rand now).length = 12 := by
    simp [Quakes.get_fallback_earthquakes]
  have hne : Quakes.get_fallback_earthquakes lat lon rand now ≠ [] := by
    intro he
    rw [he] at hlen
    simp at hlen
  refine ⟨hlen, rfl, ?_, ?_⟩
  · intro s b hsb
    rcases hsb with hs | hb
    · simp [Quakes.get_earthquake_data, Quakes.get_earthquake_data_try, hs]
    · subst hb
      by_cases hs : s = 200
      · subst hs
        rfl
      · simp [Quakes.get_earthquake_data, Quakes.get_earthquake_data_try, hs]
  · intro h
    cases h with
    | exn => exact ⟨_, rfl, hne⟩
    | resp s b =>
      by_cases hs : s = 200
      · subst hs
        cases b with
        | nil => exact ⟨_, rfl, hne⟩
        | cons f fs => exact ⟨_, rfl, by simp⟩
      · refine ⟨Quakes.get_fallback_earthquakes lat lon rand now, ?_, hne⟩
        simp [Quakes.get_earthquake_data, Quakes.get_earthquake_data_try, hs]

/-- Witness for C8: a 503 response falls back to the 12-record dataset. -/
theorem get_earthquake_data_fallback_nonempty_witness :
    (Quakes.get_fallback_earthquakes 0 0 (fun _ => (10, 1, -1)) 1700000000).length = 12 ∧
    Quakes.get_earthquake_data 0 0 500 (Http.HttpResult.resp 503 [])
        (fun _ => (10, 1, -1)) 1700000000 =
      Except.ok (Quakes.get_fallback_earthquakes 0 0 (fun _ => (10, 1, -1)) 1700000000) := by
  obtain ⟨h1, -, h3, -⟩ :=
    get_earthquake_data_fallback_nonempty 0 0 500 (fun _ => (10, 1, -1)) 1700000000
  exact ⟨h1, h3 503 [] (Or.inl (by decide))⟩

/-- C9: `get_city_coordinates` is total, keys on the lowercased and stripped
input, has 19 known city keys, and returns the London coordinates for every
unknown key. -/
theorem get_city_coordinates_total_default :
    ∀ s : String,
      Quakes.get_city_coordinates s =
        (Quakes.city_coordinates.lookup (Quakes.pyStrip (Quakes.pyLower s))).getD
          (51.5074, -0.1278) ∧
      (Quakes.city_coordinates.map Prod.fst).length = 19 ∧
      (Quakes.pyStrip (Quakes.pyLower s) ∉ Quakes.city_coordinates.map Prod.fst →
        Quakes.get_city_coordinates s = (51.5074, -0.1278)) := by
  intro s
  refine ⟨?_, by rfl, ?_⟩
  · unfold Quakes.get_city_coordinates
    cases hl : Quakes.city_coordinates.lookup (Quakes.pyStrip (Quakes.pyLower s)) <;>
      simp [hl]
  · intro hmem
    unfold Quakes.get_city_coordinates
    rw [Quakes.lookup_eq_none_of_not_mem_keys hmem]

/-- Witness for C9 on an unknown city string with case and whitespace. -/
theorem get_city_coordinates_total_default_witness :
    Quakes.get_city_coordinates "  Gotham City " = (51.5074, -0.1278) :=
  (get_city_coordinates_total_default "  Gotham City ").2.2 (by decide)

/-- C10: a customer row is in the generated campaign audience exactly when it
passes every selected filter: minimum balance, maximum age, income segment,
region, minimum products held, and campaign eligibility. -/
theorem filtered_audience_membership :
    ∀ (customers : List DashboardA.Customer) (min_balance : ℚ) (max_age : ℕ)
      (income_levels regions : List String) (min_products : ℕ)
      (c : DashboardA.Customer), c ∈ customers →
      (c ∈ DashboardA.generate_audience customers min_balance max_age income_levels
          regions min_products ↔
        (min_balance ≤ c.total_balance ∧ c.age ≤ max_age ∧
          c.income_segment ∈ income_levels ∧ c.region ∈ regions ∧
          min_products ≤ c.product_holdings ∧ c.campaign_eligible = true)) := by
  intro customers min_balance max_age income_levels regions min_products c hc
  simp [DashboardA.generate_audience, DashboardA.audienceFilter, List.mem_filter, hc,
    and_assoc, ge_iff_le]

/-- Witness for C10 on a singleton customer table. -/
theorem filtered_audience_membership_witness :
    DashboardA.sampleCustomer ∈
        DashboardA.generate_audience [DashboardA.sampleCustomer] 1000 65
          ["Medium", "High"] ["Madrid"] 1 ↔
      ((1000 : ℚ) ≤ DashboardA.sampleCustomer.total_balance ∧
        DashboardA.sampleCustomer.age ≤ 65 ∧
        DashboardA.sampleCustomer.income_segment ∈ ["Medium", "High"] ∧
        DashboardA.sampleCustomer.region ∈ ["Madrid"] ∧
        1 ≤ DashboardA.sampleCustomer.product_holdings ∧
        DashboardA.sampleCustomer.campaign_eligible = true) :=
  filtered_audience_membership [DashboardA.sampleCustomer] 1000 65 ["Medium", "High"]
    ["Madrid"] 1 DashboardA.sampleCustomer (List.mem_singleton_self _)
